import Mathlib

/-!
Shallow embedding of the xpra video codec wrapper code
(`src/xpra/x264/x264lib.c`, `src/xpra/codecs/enc_x264/enc_x264.c`,
`src/xpra/codecs/csc_swscale/csc_swscale.c`).

C `int` values are modelled as `Int`; C truth values (nonzero = true) are
kept as `Int` results where the C function returns an `int` used as a
boolean.  C `float` arithmetic is modelled with exact rational arithmetic
(`ℚ`).  Pointers returned by external allocators (x264, libav, swscale)
are modelled as generation numbers: `0` is `NULL`, and each allocation
returns a fresh positive generation drawn from a per-context counter
`gen`, so two distinct allocations never compare equal.
-/

namespace Xpra

/-- Constants from the external headers `x264.h`, `libavcodec`/`libavutil`
and `libswscale/swscale.h`.  The wrapper code only compares these for
equality (or combines disjoint bits), so only their distinctness matters;
the numeric values follow the headers of that era. -/
def X264_CSP_I420 : Int := 1

/-- `x264.h` colour-space constant for 4:2:2 planar. -/
def X264_CSP_I422 : Int := 4

/-- `x264.h` colour-space constant for 4:4:4 planar. -/
def X264_CSP_I444 : Int := 6

/-- libav `PixelFormat` constant `PIX_FMT_YUV420P`. -/
def PIX_FMT_YUV420P : Int := 0

/-- libav `PixelFormat` constant `PIX_FMT_YUV422P`. -/
def PIX_FMT_YUV422P : Int := 4

/-- libav `PixelFormat` constant `PIX_FMT_YUV444P`. -/
def PIX_FMT_YUV444P : Int := 5

/-- `libswscale` scaler flag `SWS_FAST_BILINEAR`. -/
def SWS_FAST_BILINEAR : Int := 1

/-- `libswscale` scaler flag `SWS_BICUBIC`. -/
def SWS_BICUBIC : Int := 4

/-- `libswscale` scaler flag `SWS_BICUBLIN`. -/
def SWS_BICUBLIN : Int := 64

/-- `libswscale` scaler flag `SWS_ACCURATE_RND` (`0x40000`). -/
def SWS_ACCURATE_RND : Int := 262144

/-- A C boolean result: `1` for true, `0` for false (the comparison
operators of C produce exactly these values). -/
def cbool (p : Prop) [Decidable p] : Int := if p then 1 else 0

/-- `x & ~0x1` on a two's-complement C `int`: clears the least significant
bit, i.e. rounds towards negative infinity to an even number. -/
def maskLSB (x : Int) : Int := 2 * Int.fdiv x 2

/-- The `x264_preset_names` table from `x264.h`. -/
def x264_preset_names : List String :=
  ["ultrafast", "superfast", "veryfast", "faster", "fast", "medium",
   "slow", "slower", "veryslow", "placebo"]

/-- `struct x264lib_ctx` from `x264lib.c`.  Fields not used by the
modelled operations (log callbacks and the like) are omitted; pointer
fields (`encoder`, `rgb2yuv`, `yuv2rgb`, `codec`, `codec_ctx`, `frame`)
are generation numbers with `0 = NULL`, and `gen` is the allocation
counter supplying fresh generations. -/
structure X264Ctx where
  width : Int := 0
  height : Int := 0
  csc_format : Int := 0
  speed : Int := 0
  quality : Int := 0
  supports_csc_option : Int := 0
  encoding_preset : Int := 0
  x264_quality : ℚ := 0
  colour_sampling : Int := 0
  profile : String := ""
  preset : String := ""
  csc_algo : Int := 0
  I420_profile : String := ""
  I422_profile : String := ""
  I444_profile : String := ""
  I422_min : Int := 0
  I444_min : Int := 0
  I422_quality : Int := 0
  I444_quality : Int := 0
  use_swscale : Int := 0
  encoder : Nat := 0
  rgb2yuv : Nat := 0
  yuv2rgb : Nat := 0
  codec : Nat := 0
  codec_ctx : Nat := 0
  frame : Nat := 0
  gen : Nat := 0
  deriving Repr, DecidableEq

/-- `get_encoder_quality` from `x264lib.c`. -/
def get_encoder_quality (ctx : X264Ctx) : Int := ctx.quality

/-- `get_encoder_speed` from `x264lib.c`. -/
def get_encoder_speed (ctx : X264Ctx) : Int := ctx.speed

/-- `get_x264_quality` (identical in `x264lib.c` and `enc_x264.c`):
`50.0f - (MIN(100, MAX(0, pct)) * 49.0f / 100.0f)`, with the float
arithmetic modelled exactly over `ℚ`. -/
def get_x264_quality (pct : Int) : ℚ :=
  50 - ((min 100 (max 0 pct) : Int) : ℚ) * 49 / 100

/-- `get_x264_colour_sampling` from `x264lib.c` (with `SUPPORT_CSC_MODES`
defined, as in the source). -/
def get_x264_colour_sampling (ctx : X264Ctx) (pct : Int) : Int :=
  if ctx.supports_csc_option = 0 then X264_CSP_I420
  else if pct < ctx.I422_quality then X264_CSP_I420
  else if pct < ctx.I444_quality then X264_CSP_I422
  else X264_CSP_I444

/-- `can_keep_colour_sampling` from `x264lib.c` (with `SUPPORT_CSC_MODES`
defined).  Returns a C truth value; `-1` on an unknown current sampling. -/
def can_keep_colour_sampling (ctx : X264Ctx) (pct : Int) : Int :=
  if ctx.supports_csc_option = 0 then cbool (ctx.colour_sampling = X264_CSP_I420)
  else if ctx.colour_sampling = X264_CSP_I444 then cbool (ctx.I444_min ≤ pct)
  else if ctx.colour_sampling = X264_CSP_I422 then
    cbool (ctx.I422_min ≤ pct ∧ pct ≤ ctx.I444_quality)
  else if ctx.colour_sampling = X264_CSP_I420 then cbool (pct ≤ ctx.I422_quality)
  else -1

/-- `get_csc_format_for_x264_format` from `x264lib.c`. -/
def get_csc_format_for_x264_format (i_csp : Int) : Int :=
  if i_csp = X264_CSP_I420 then PIX_FMT_YUV420P
  else if i_csp = X264_CSP_I422 then PIX_FMT_YUV422P
  else if i_csp = X264_CSP_I444 then PIX_FMT_YUV444P
  else -1

/-- `get_csc_algo_for_quality` from `x264lib.c`: always returns
`SWS_BICUBLIN | SWS_ACCURATE_RND` (the two flag sets are bit-disjoint, so
the bitwise or equals the sum). -/
def get_csc_algo_for_quality (_initial_quality : Int) : Int :=
  SWS_BICUBLIN + SWS_ACCURATE_RND

/-- `get_profile_for_quality` from `x264lib.c`. -/
def get_profile_for_quality (ctx : X264Ctx) (pct : Int) : String :=
  if pct < ctx.I422_quality then ctx.I420_profile
  else if pct < ctx.I444_quality then ctx.I422_profile
  else ctx.I444_profile

/-- `get_valid_profile` from `x264lib.c`: returns the given profile when
it occurs in the allowed list, the default otherwise (`NULL` input is
`none`). -/
def get_valid_profile (profile : Option String) (profiles : List String)
    (default_profile : String) : String :=
  match profile with
  | none => default_profile
  | some p => if p ∈ profiles then p else default_profile

/-- Profile name constants and tables from `x264lib.c`. -/
def PROFILE_BASELINE : String := "baseline"

/-- `"high422"` profile name. -/
def PROFILE_HIGH422 : String := "high422"

/-- `"high444"` predictive profile name. -/
def PROFILE_HIGH444_PREDICTIVE : String := "high444"

/-- `I420_PROFILES` from `x264lib.c` (without the `NULL` sentinel). -/
def I420_PROFILES : List String :=
  [PROFILE_BASELINE, "main", "high", "high10", PROFILE_HIGH422,
   PROFILE_HIGH444_PREDICTIVE]

/-- `I422_PROFILES` from `x264lib.c`. -/
def I422_PROFILES : List String := [PROFILE_HIGH422, PROFILE_HIGH444_PREDICTIVE]

/-- `I444_PROFILES` from `x264lib.c`. -/
def I444_PROFILES : List String := [PROFILE_HIGH444_PREDICTIVE]

/-- `DEFAULT_INITIAL_QUALITY` from `x264lib.c`. -/
def DEFAULT_INITIAL_QUALITY : Int := 70

/-- `DEFAULT_INITIAL_SPEED` from `x264lib.c`. -/
def DEFAULT_INITIAL_SPEED : Int := 20

/-- `DEFAULT_I422_MIN_QUALITY` from `x264lib.c`. -/
def DEFAULT_I422_MIN_QUALITY : Int := 80

/-- `DEFAULT_I444_MIN_QUALITY` from `x264lib.c`. -/
def DEFAULT_I444_MIN_QUALITY : Int := 90

/-- `configure_encoder` from `x264lib.c`: stores dimensions, initial
speed/quality, the CSC capability flag, the four sampling thresholds
(with out-of-range or inconsistent values replaced by clamped defaults)
and the validated profile names.  The function is total: no input is
rejected. -/
def configure_encoder (ctx : X264Ctx) (width height initial_quality initial_speed
    supports_csc_option I422_quality I444_quality I422_min I444_min : Int)
    (i420_profile i422_profile i444_profile : Option String) : X264Ctx :=
  let speed := if 0 ≤ initial_speed then initial_speed else DEFAULT_INITIAL_SPEED
  let quality := if 0 ≤ initial_quality then initial_quality else DEFAULT_INITIAL_QUALITY
  let q422 := if 0 ≤ I422_quality ∧ I422_quality ≤ 100 then I422_quality
              else DEFAULT_I422_MIN_QUALITY
  let q444 := if 0 ≤ I444_quality ∧ I444_quality ≤ 100 ∧ q422 ≤ I444_quality
              then I444_quality
              else min 100 (max DEFAULT_I444_MIN_QUALITY (q422 + 10))
  let m422 := if 0 ≤ I422_min ∧ I422_min ≤ 100 ∧ I422_min ≤ q422 then I422_min
              else max 0 (q422 - 10)
  let m444 := if 0 ≤ I444_min ∧ I444_min ≤ 100 ∧ I444_min ≤ q444 then I444_min
              else max 0 (min m422 (q444 - 10))
  { ctx with
    use_swscale := 1
    width := width
    height := height
    speed := speed
    quality := quality
    supports_csc_option := supports_csc_option
    I422_quality := q422
    I444_quality := q444
    I422_min := m422
    I444_min := m444
    I420_profile := get_valid_profile i420_profile I420_PROFILES PROFILE_BASELINE
    I422_profile := get_valid_profile i422_profile I422_PROFILES PROFILE_HIGH422
    I444_profile := get_valid_profile i444_profile I444_PROFILES
      PROFILE_HIGH444_PREDICTIVE }

/-- `do_clean_encoder` from `x264lib.c`: frees the swscale context and
closes the encoder (both pointers become `NULL`). -/
def do_clean_encoder (ctx : X264Ctx) : X264Ctx :=
  { ctx with rgb2yuv := 0, encoder := 0 }

/-- `do_init_encoder` from `x264lib.c`: recomputes the colour sampling,
rate factor, csc format, preset, profile and csc algorithm from the
stored `quality`, opens a fresh encoder, and (when `use_swscale` is set)
creates a fresh rgb-to-yuv swscale context. -/
def do_init_encoder (ctx : X264Ctx) : X264Ctx :=
  let cs := get_x264_colour_sampling ctx ctx.quality
  { ctx with
    colour_sampling := cs
    x264_quality := get_x264_quality ctx.quality
    csc_format := get_csc_format_for_x264_format cs
    encoding_preset := 2
    preset := x264_preset_names.getD 2 ""
    profile := get_profile_for_quality ctx ctx.quality
    csc_algo := get_csc_algo_for_quality ctx.quality
    encoder := ctx.gen + 1
    rgb2yuv := if ctx.use_swscale ≠ 0 then ctx.gen + 2 else ctx.rgb2yuv
    gen := if ctx.use_swscale ≠ 0 then ctx.gen + 2 else ctx.gen + 1 }

/-- The external calls issued by one `set_encoding_quality` call:
`reinit` is a full teardown (`do_clean_encoder`) plus `do_init_encoder`;
`reconfig` is an `x264_encoder_reconfig` of the rate factor only;
`cscInit` is the trailing `init_encoder_csc` when the csc algorithm
changed. -/
structure QEffects where
  reinit : Bool := false
  reconfig : Bool := false
  cscInit : Bool := false
  deriving Repr, DecidableEq

/-- `set_encoding_quality` from `x264lib.c`.  The early-return branch
fires exactly when the context supports csc, the current sampling cannot
be kept at `pct`, and the freshly computed sampling differs from the
current one; otherwise the call falls through to the rate-factor update
(guarded by equality of the quality percentages with their least
significant bit masked off) and the csc-algorithm refresh. -/
def set_encoding_quality (ctx : X264Ctx) (pct : Int) : X264Ctx × QEffects :=
  let old_csc_algo := ctx.csc_algo
  let new_quality := get_x264_quality pct
  if ctx.supports_csc_option ≠ 0 ∧ can_keep_colour_sampling ctx pct = 0 ∧
      ctx.colour_sampling ≠ get_x264_colour_sampling ctx pct then
    let c := do_clean_encoder ctx
    let c := { c with quality := pct, x264_quality := new_quality }
    (do_init_encoder c, { reinit := true })
  else
    let step : X264Ctx × Bool :=
      if maskLSB ctx.quality ≠ maskLSB pct then
        ({ ctx with quality := pct, x264_quality := new_quality }, true)
      else (ctx, false)
    let c2 : X264Ctx := { step.1 with csc_algo := get_csc_algo_for_quality pct }
    if old_csc_algo ≠ c2.csc_algo then
      ({ c2 with rgb2yuv := c2.gen + 1, gen := c2.gen + 1 },
       { reconfig := step.2, cscInit := true })
    else (c2, { reconfig := step.2 })

/-- The `new_preset` value computed by `set_encoding_speed` in
`x264lib.c`: `7 - MAX(0, MIN(6, pct/16))` with C (truncating) division. -/
def set_encoding_speed_new_preset (pct : Int) : Int :=
  7 - max 0 (min 6 (Int.tdiv pct 16))

namespace EncX264

/-- `struct enc_x264_ctx` from `enc_x264.c` (the `x264_ctx` pointer is a
generation number as in `X264Ctx`). -/
structure EncCtx where
  width : Int := 0
  height : Int := 0
  x264_ctx : Nat := 0
  speed : Int := 0
  quality : Int := 0
  encoding_preset : Int := 0
  color_sampling : Int := 0
  colorspace : String := ""
  profile : String := ""
  deriving Repr, DecidableEq

/-- `get_encoder_quality` from `enc_x264.c`. -/
def get_encoder_quality (ctx : EncCtx) : Int := ctx.quality

/-- `get_preset_for_speed` from `enc_x264.c`: `0` ("ultrafast") only for
`speed > 99`, otherwise `7 - MAX(0, MIN(6, speed/15))` with C
(truncating) division. -/
def get_preset_for_speed (speed : Int) : Int :=
  if 99 < speed then 0 else 7 - max 0 (min 6 (Int.tdiv speed 15))

/-- `set_encoding_quality` from `enc_x264.c`: updates the stored quality
and issues an `x264_encoder_reconfig` (result flag `true`) only when the
new percentage differs from the stored one with the least significant
bit masked off. -/
def set_encoding_quality (ctx : EncCtx) (pct : Int) : EncCtx × Bool :=
  if maskLSB ctx.quality ≠ maskLSB pct then ({ ctx with quality := pct }, true)
  else (ctx, false)

end EncX264

namespace Swscale

/-- One row of the `swscale_flags` table in `csc_swscale.c`. -/
structure SwscaleFlag where
  flags : Int
  speed : Int
  description : String
  deriving Repr, DecidableEq

/-- The static six-entry `swscale_flags` table from `csc_swscale.c`,
ranked by speed score (flag combinations written as sums of the
bit-disjoint `SWS_*` constants). -/
def swscale_flags : List SwscaleFlag :=
  [⟨SWS_BICUBIC + SWS_ACCURATE_RND, 30, "BICUBIC | SWS_ACCURATE_RND"⟩,
   ⟨SWS_BICUBLIN + SWS_ACCURATE_RND, 50, "BICUBLIN | SWS_ACCURATE_RND"⟩,
   ⟨SWS_FAST_BILINEAR + SWS_ACCURATE_RND, 70, "FAST_BILINEAR | SWS_ACCURATE_RND"⟩,
   ⟨SWS_BICUBIC, 80, "BICUBIC"⟩,
   ⟨SWS_BICUBLIN, 90, "BICUBLIN"⟩,
   ⟨SWS_FAST_BILINEAR, 100, "FAST_BILINEAR"⟩]

/-- `TOTAL_FLAGS` from `csc_swscale.c`. -/
def TOTAL_FLAGS : Nat := 6

/-- The scan loop of `get_swscale_flags`
(`while (i<TOTAL_FLAGS && swscale_flags[i].speed<speed) i++`), expressed
by walking the table entries still ahead of index `i`; running out of
entries corresponds to reaching `i = TOTAL_FLAGS`. -/
def scan (speed : Int) : List SwscaleFlag → Nat → Nat
  | [], i => i
  | e :: rest, i => if e.speed < speed then scan speed rest (i + 1) else i

/-- The index of the table entry whose address `get_swscale_flags`
returns (`&swscale_flags[i]` after the scan loop); the C code performs
no further bounds check, so index `TOTAL_FLAGS` denotes a pointer one
past the end of the table. -/
def get_swscale_flags_index (speed : Int) : Nat := scan speed swscale_flags 0

end Swscale

namespace Dec

/-- The outcomes of the external libav calls made by
`init_decoder_context`: whether `avcodec_find_decoder`,
`avcodec_alloc_context3`, `avcodec_open2` and `avcodec_alloc_frame`
succeed. -/
structure DecEnv where
  codecFound : Bool := true
  allocOk : Bool := true
  openOk : Bool := true
  frameOk : Bool := true
  deriving Repr, DecidableEq

/-- `do_clean_decoder` from `x264lib.c`: frees the frame, the codec
context and the yuv-to-rgb swscale context (all three become `NULL`). -/
def do_clean_decoder (ctx : X264Ctx) : X264Ctx :=
  { ctx with frame := 0, codec_ctx := 0, yuv2rgb := 0 }

/-- `init_decoder_context` from `x264lib.c`: maps a negative colourspace
to `PIX_FMT_YUV420P`, stores dimensions and format, creates the
yuv-to-rgb context when `use_swscale` is set, then performs the libav
codec setup, returning `0` on success and `1` on any failure. -/
def init_decoder_context (ctx : X264Ctx) (width height use_swscale csc_fmt : Int)
    (env : DecEnv) : X264Ctx × Int :=
  let fmt := if csc_fmt < 0 then PIX_FMT_YUV420P else csc_fmt
  let g1 := if use_swscale ≠ 0 then ctx.gen + 1 else ctx.gen
  let c : X264Ctx :=
    { ctx with
      use_swscale := use_swscale
      width := width
      height := height
      csc_format := fmt
      csc_algo := get_csc_algo_for_quality 100
      yuv2rgb := if use_swscale ≠ 0 then ctx.gen + 1 else ctx.yuv2rgb
      gen := g1 }
  if ¬ env.codecFound then ({ c with codec := 0 }, 1)
  else
    let c : X264Ctx := { c with codec := g1 + 1, gen := g1 + 1 }
    if ¬ env.allocOk then ({ c with codec_ctx := 0 }, 1)
    else
      let c : X264Ctx := { c with codec_ctx := g1 + 2, gen := g1 + 2 }
      if ¬ env.openOk then (c, 1)
      else if ¬ env.frameOk then ({ c with frame := 0 }, 1)
      else ({ c with frame := g1 + 3, gen := g1 + 3 }, 0)

/-- `set_decoder_csc_format` from `x264lib.c`: negative formats default
to `PIX_FMT_YUV420P`; when the mapped format equals the stored one the
context is untouched (flag `false`), otherwise the decoder state is torn
down and reinitialised at the stored width and height with the new
format (flag `true`). -/
def set_decoder_csc_format (ctx : X264Ctx) (csc_fmt : Int) (env : DecEnv) :
    X264Ctx × Bool :=
  let fmt := if csc_fmt < 0 then PIX_FMT_YUV420P else csc_fmt
  if ctx.csc_format ≠ fmt then
    let c := do_clean_decoder ctx
    ((init_decoder_context c c.width c.height c.use_swscale fmt env).1, true)
  else (ctx, false)

/-- The three data plane pointers and three line sizes that
`decompress_image` hands back through its `out` and `outstride`
arguments (pointers modelled as integers, `0 = NULL`). -/
structure Planes where
  data0 : Int := 0
  data1 : Int := 0
  data2 : Int := 0
  linesize0 : Int := 0
  linesize1 : Int := 0
  linesize2 : Int := 0
  deriving Repr, DecidableEq

/-- `decompress_image` from `x264lib.c`.  `decoded` is the outcome of the
external `avcodec_decode_video2` call: `none` when it returns a negative
length, `some pic` when it produces a picture.  `out` holds the caller's
output arrays before the call; the result is the return code, the
caller's arrays after the call, and the (unmodified) context.  On a
missing codec the function returns `1` without touching the arrays; on a
decode failure it zeroes the three plane pointers (`memset(out, 0,
sizeof(*out))`) and returns `2`; otherwise it copies the picture's plane
pointers and line sizes and returns `3` when the accumulated output size
is zero, else `0`. -/
def decompress_image (ctx : X264Ctx) (decoded : Option Planes) (out : Planes) :
    Int × Planes × X264Ctx :=
  if ctx.codec_ctx = 0 ∨ ctx.codec = 0 then (1, out, ctx)
  else
    match decoded with
    | none => (2, { out with data0 := 0, data1 := 0, data2 := 0 }, ctx)
    | some pic =>
      let out' : Planes := pic
      let outsize := ctx.height * pic.linesize0 + ctx.height * pic.linesize1 +
        ctx.height * pic.linesize2
      if outsize = 0 then (3, out', ctx) else (0, out', ctx)

end Dec

namespace Examples

/-- An encoder context in 4:2:0 sampling with the default thresholds
`I422_quality=80, I444_quality=90, I422_min=70, I444_min=80`. -/
def ctx420 : X264Ctx :=
  { supports_csc_option := 1, colour_sampling := X264_CSP_I420, quality := 50,
    I422_quality := 80, I444_quality := 90, I422_min := 70, I444_min := 80,
    use_swscale := 1 }

/-- An encoder context in 4:4:4 sampling with the default thresholds
(the starting state of the hysteresis example in the specification). -/
def ctx444 : X264Ctx :=
  { supports_csc_option := 1, colour_sampling := X264_CSP_I444, quality := 100,
    I422_quality := 80, I444_quality := 90, I422_min := 70, I444_min := 80,
    use_swscale := 1 }

/-- The colour sampling after each of the four quality updates
`95, 85, 75, 65` applied to `ctx444` through `set_encoding_quality`. -/
def trace : List Int :=
  let c1 := (set_encoding_quality ctx444 95).1
  let c2 := (set_encoding_quality c1 85).1
  let c3 := (set_encoding_quality c2 75).1
  let c4 := (set_encoding_quality c3 65).1
  [c1.colour_sampling, c2.colour_sampling, c3.colour_sampling, c4.colour_sampling]

/-- A live decoder context at `PIX_FMT_YUV420P`. -/
def decCtx : X264Ctx :=
  { width := 640, height := 480, csc_format := PIX_FMT_YUV420P, use_swscale := 1,
    yuv2rgb := 1, codec := 2, codec_ctx := 3, frame := 4, gen := 4 }

/-- An encoder context that does not support csc changes, at quality 70. -/
def ctxNoCsc : X264Ctx :=
  { supports_csc_option := 0, colour_sampling := X264_CSP_I420, quality := 70,
    csc_algo := get_csc_algo_for_quality 70 }

/-- An `enc_x264.c` encoder context at quality 70. -/
def encCtx70 : EncX264.EncCtx := { quality := 70 }

end Examples

/-! ### Helper lemmas -/

theorem cbool_ne_zero (p : Prop) [Decidable p] : cbool p ≠ 0 ↔ p := by
  unfold cbool
  split <;> simp_all

theorem get_x264_quality_eq (pct : Int) :
    get_x264_quality pct = 50 - ((min 100 (max 0 pct) : Int) : ℚ) * 49 / 100 := rfl

/-! ### C4: quality percentage to x264 rate factor -/

/-- C4: `get_x264_quality` clamps its input to `[0,100]` and maps it
linearly to `50 - pct * 49 / 100`; it is monotonically non-increasing,
always lies in `[1, 50]`, and takes the value `1` at `pct = 100` and
`50` at `pct = 0`. -/
theorem get_x264_quality_spec (p q : Int) (hpq : p ≤ q) :
    get_x264_quality q ≤ get_x264_quality p ∧
    1 ≤ get_x264_quality p ∧ get_x264_quality p ≤ 50 ∧
    get_x264_quality 100 = 1 ∧ get_x264_quality 0 = 50 ∧
    (0 ≤ p → p ≤ 100 → get_x264_quality p = 50 - (p : ℚ) * 49 / 100) := by
  have hcp : (0 : Int) ≤ min 100 (max 0 p) ∧ min 100 (max 0 p) ≤ 100 := by omega
  have hcq : (0 : Int) ≤ min 100 (max 0 q) ∧ min 100 (max 0 q) ≤ 100 := by omega
  have hmono : min 100 (max 0 p) ≤ min 100 (max 0 q) := by omega
  have hp0 : (0 : ℚ) ≤ ((min 100 (max 0 p) : Int) : ℚ) := by exact_mod_cast hcp.1
  have hp100 : ((min 100 (max 0 p) : Int) : ℚ) ≤ 100 := by exact_mod_cast hcp.2
  have hmq : ((min 100 (max 0 p) : Int) : ℚ) ≤ ((min 100 (max 0 q) : Int) : ℚ) := by
    exact_mod_cast hmono
  refine ⟨?_, ?_, ?_, ?_, ?_, ?_⟩
  · rw [get_x264_quality_eq, get_x264_quality_eq]; linarith
  · rw [get_x264_quality_eq]; linarith
  · rw [get_x264_quality_eq]; linarith
  · rw [get_x264_quality_eq]; norm_num
  · rw [get_x264_quality_eq]; norm_num
  · intro h0 h100
    rw [get_x264_quality_eq]
    have : min 100 (max 0 p) = p := by omega
    rw [this]

/-- Witness for C4 at `p = 30 ≤ q = 80`. -/
theorem get_x264_quality_spec_witness :
    get_x264_quality 80 ≤ get_x264_quality 30 ∧ 1 ≤ get_x264_quality 30 :=
  ⟨(get_x264_quality_spec 30 80 (by norm_num)).1,
   (get_x264_quality_spec 30 80 (by norm_num)).2.1⟩

/-! ### C3: speed percentage to x264 preset -/

/-- C3 counterexample at `pct = 100`: the `enc_x264.c` mapping
`get_preset_for_speed` returns `0` there, while the claimed formula
`7 - clamp(pct/16, 0, 6)` (the `new_preset` expression of
`set_encoding_speed` in `x264lib.c`) returns `1`; in particular the
mapping does not equal that formula, and the formula variant never
yields the fastest preset `0`. -/
theorem get_preset_for_speed_claim_false :
    EncX264.get_preset_for_speed 100 ≠ set_encoding_speed_new_preset 100 ∧
    set_encoding_speed_new_preset 100 ≠ 0 ∧
    EncX264.get_preset_for_speed 100 = 0 := by
  refine ⟨?_, ?_, ?_⟩ <;> decide

/-- C3 amended: over `[0,100]` the `enc_x264.c` speed-to-preset mapping
equals `0` when `pct > 99` and `7 - clamp(floor(pct/15), 0, 6)`
otherwise; it is monotonically non-increasing, its value lies in
`{0..7}`, it yields `0` (the fastest preset, "ultrafast") at
`pct = 100`, and it yields a value `> 0` for every `pct < 99`. -/
theorem get_preset_for_speed_spec (p q : Int) (hp0 : 0 ≤ p) (hpq : p ≤ q)
    (hq100 : q ≤ 100) :
    EncX264.get_preset_for_speed p =
      (if 99 < p then 0 else 7 - min 6 (p / 15)) ∧
    EncX264.get_preset_for_speed q ≤ EncX264.get_preset_for_speed p ∧
    0 ≤ EncX264.get_preset_for_speed p ∧ EncX264.get_preset_for_speed p ≤ 7 ∧
    EncX264.get_preset_for_speed 100 = 0 ∧
    (p < 99 → 0 < EncX264.get_preset_for_speed p) := by
  have hq0 : 0 ≤ q := le_trans hp0 hpq
  have hdp : Int.tdiv p 15 = p / 15 := Int.tdiv_eq_ediv hp0 (by norm_num)
  have hdq : Int.tdiv q 15 = q / 15 := Int.tdiv_eq_ediv hq0 (by norm_num)
  unfold EncX264.get_preset_for_speed
  rw [hdp, hdq]
  split_ifs <;> omega

/-- Witness for C3 at `p = 40 ≤ q = 100`. -/
theorem get_preset_for_speed_spec_witness :
    EncX264.get_preset_for_speed 100 ≤ EncX264.get_preset_for_speed 40 ∧
    0 < EncX264.get_preset_for_speed 40 :=
  ⟨(get_preset_for_speed_spec 40 100 (by norm_num) (by norm_num) (by norm_num)).2.1,
   (get_preset_for_speed_spec 40 100 (by norm_num) (by norm_num)
     (by norm_num)).2.2.2.2.2 (by norm_num)⟩

/-! ### C5: configure_encoder threshold clamping -/

/-- C5: `configure_encoder` accepts every combination of integer inputs
(the function is total, nothing is rejected) and afterwards the stored
thresholds satisfy
`0 ≤ I422_min ≤ I422_quality ≤ I444_quality ≤ 100` and
`0 ≤ I444_min ≤ I444_quality`: out-of-range or mutually inconsistent
inputs are replaced by clamped safe defaults. -/
theorem configure_encoder_thresholds (ctx : X264Ctx)
    (width height initial_quality initial_speed supports_csc_option
      I422_quality I444_quality I422_min I444_min : Int)
    (p420 p422 p444 : Option String) :
    0 ≤ (configure_encoder ctx width height initial_quality initial_speed
          supports_csc_option I422_quality I444_quality I422_min I444_min
          p420 p422 p444).I422_min ∧
    (configure_encoder ctx width height initial_quality initial_speed
          supports_csc_option I422_quality I444_quality I422_min I444_min
          p420 p422 p444).I422_min ≤
      (configure_encoder ctx width height initial_quality initial_speed
          supports_csc_option I422_quality I444_quality I422_min I444_min
          p420 p422 p444).I422_quality ∧
    (configure_encoder ctx width height initial_quality initial_speed
          supports_csc_option I422_quality I444_quality I422_min I444_min
          p420 p422 p444).I422_quality ≤
      (configure_encoder ctx width height initial_quality initial_speed
          supports_csc_option I422_quality I444_quality I422_min I444_min
          p420 p422 p444).I444_quality ∧
    (configure_encoder ctx width height initial_quality initial_speed
          supports_csc_option I422_quality I444_quality I422_min I444_min
          p420 p422 p444).I444_quality ≤ 100 ∧
    0 ≤ (configure_encoder ctx width height initial_quality initial_speed
          supports_csc_option I422_quality I444_quality I422_min I444_min
          p420 p422 p444).I444_min ∧
    (configure_encoder ctx width height initial_quality initial_speed
          supports_csc_option I422_quality I444_quality I422_min I444_min
          p420 p422 p444).I444_min ≤
      (configure_encoder ctx width height initial_quality initial_speed
          supports_csc_option I422_quality I444_quality I422_min I444_min
          p420 p422 p444).I444_quality := by
  simp only [configure_encoder, DEFAULT_I422_MIN_QUALITY, DEFAULT_I444_MIN_QUALITY]
  split_ifs <;> simp_all <;> omega

/-! ### C6: swscale speed table lookup -/

/-- C6: `get_swscale_flags` scans the six-entry ranked table for the
first entry whose speed score is at least the requested hint.  For hints
up to `100` the resulting index is in bounds (at `100` it selects the
last, fastest entry, index `5`), but for a hint of `101` — which exceeds
every speed score in the table — the loop runs off the end and the
function returns `&swscale_flags[6]`, one past the end of the table,
instead of any valid entry. -/
theorem get_swscale_flags_out_of_bounds :
    Swscale.get_swscale_flags_index 101 = Swscale.swscale_flags.length ∧
    Swscale.get_swscale_flags_index 100 = 5 ∧
    Swscale.get_swscale_flags_index 30 = 0 ∧
    Swscale.swscale_flags.length = Swscale.TOTAL_FLAGS := by
  refine ⟨?_, ?_, ?_, ?_⟩ <;> decide

/-! ### C1: hysteresis rule of can_keep_colour_sampling -/

/-- C1 counterexample: in 4:2:0 sampling with the valid thresholds of
`Examples.ctx420` (`I422_quality = 80`), at `pct = 80` the code keeps
the current sampling (`can_keep_colour_sampling` is nonzero, the
comparison being `pct <= I422_quality`), whereas the claim states that
the sampling is kept iff `pct` has not risen to or above
`I422_quality`, i.e. iff `pct < 80`. -/
theorem can_keep_colour_sampling_claim_false :
    ¬ ((can_keep_colour_sampling Examples.ctx420 80 ≠ 0) ↔
        80 < Examples.ctx420.I422_quality) := by
  decide

/-- C1 amended: for every context with `supports_csc_option` set and
thresholds satisfying the configured constraints, and every quality
percentage `pct`: in 4:4:4 the sampling is kept iff `pct` has not
dropped below `I444_min`; in 4:2:2 iff `pct` has not dropped below
`I422_min` and has not risen strictly above `I444_quality` (at
`pct = I444_quality` it still keeps); in 4:2:0 iff `pct` has not risen
strictly above `I422_quality` (at `pct = I422_quality` it still
keeps). -/
theorem can_keep_colour_sampling_hysteresis (ctx : X264Ctx)
    (hsup : ctx.supports_csc_option ≠ 0)
    (h1 : 0 ≤ ctx.I422_min) (h2 : ctx.I422_min ≤ ctx.I422_quality)
    (h3 : ctx.I422_quality ≤ ctx.I444_quality) (h4 : ctx.I444_quality ≤ 100)
    (h5 : 0 ≤ ctx.I444_min) (h6 : ctx.I444_min ≤ ctx.I444_quality)
    (pct : Int) :
    (ctx.colour_sampling = X264_CSP_I444 →
      (can_keep_colour_sampling ctx pct ≠ 0 ↔ ctx.I444_min ≤ pct)) ∧
    (ctx.colour_sampling = X264_CSP_I422 →
      (can_keep_colour_sampling ctx pct ≠ 0 ↔
        ctx.I422_min ≤ pct ∧ pct ≤ ctx.I444_quality)) ∧
    (ctx.colour_sampling = X264_CSP_I420 →
      (can_keep_colour_sampling ctx pct ≠ 0 ↔ pct ≤ ctx.I422_quality)) := by
  refine ⟨fun hcs => ?_, fun hcs => ?_, fun hcs => ?_⟩ <;>
    simp only [can_keep_colour_sampling, hcs, hsup, X264_CSP_I420, X264_CSP_I422,
      X264_CSP_I444, if_neg hsup] <;>
    norm_num <;>
    exact cbool_ne_zero _

/-- Witness for C1: in 4:4:4 with thresholds `70 ≤ 80 ≤ 90 ≤ 100`,
`I444_min = 80`, the sampling is kept at `pct = 85`. -/
theorem can_keep_colour_sampling_hysteresis_witness :
    can_keep_colour_sampling Examples.ctx444 85 ≠ 0 :=
  ((can_keep_colour_sampling_hysteresis Examples.ctx444 (by decide) (by decide)
      (by decide) (by decide) (by decide) (by decide) (by decide) 85).1
    (by decide)).mpr (by decide)

/-! ### C2: quality sequence 95, 85, 75, 65 from 4:4:4 -/

/-- C2 counterexample: with thresholds `I422_quality=80, I444_quality=90,
I422_min=70, I444_min=80`, starting in 4:4:4, the third quality update
(to `75`) does not produce 4:2:2: `75 < I444_min` forces a sampling
change and `get_x264_colour_sampling` at `75 < I422_quality = 80`
selects 4:2:0 directly. -/
theorem set_encoding_quality_trace_claim_false :
    Examples.trace.getD 2 0 ≠ X264_CSP_I422 := by
  decide

/-- C2 amended: for the configuration `I422_quality=80, I444_quality=90,
I422_min=70, I444_min=80` starting in sampling 4:4:4, applying the
quality updates `95, 85, 75, 65` in order through
`set_encoding_quality` produces the sampling sequence
`444, 444, 420, 420`. -/
theorem set_encoding_quality_trace :
    Examples.trace =
      [X264_CSP_I444, X264_CSP_I444, X264_CSP_I420, X264_CSP_I420] := by
  decide

/-! ### C8: set_decoder_csc_format -/

/-- C8: negative colourspace formats default to `PIX_FMT_YUV420P`.  When
the mapped format equals the stored `csc_format` the context is returned
entirely unchanged and no teardown happens; when it differs, the decoder
state is torn down and reinitialised (when the libav calls succeed, the
codec, codec context, frame and — with `use_swscale` — yuv-to-rgb
pointers are fresh allocations, distinct from every pointer the context
held before), the new format is stored, and the context's width and
height are preserved. -/
theorem set_decoder_csc_format_spec (ctx : X264Ctx) (csc_fmt : Int)
    (env : Dec.DecEnv) :
    ((if csc_fmt < 0 then PIX_FMT_YUV420P else csc_fmt) = ctx.csc_format →
      Dec.set_decoder_csc_format ctx csc_fmt env = (ctx, false)) ∧
    ((if csc_fmt < 0 then PIX_FMT_YUV420P else csc_fmt) ≠ ctx.csc_format →
      (Dec.set_decoder_csc_format ctx csc_fmt env).2 = true ∧
      (Dec.set_decoder_csc_format ctx csc_fmt env).1.width = ctx.width ∧
      (Dec.set_decoder_csc_format ctx csc_fmt env).1.height = ctx.height ∧
      (Dec.set_decoder_csc_format ctx csc_fmt env).1.csc_format =
        (if csc_fmt < 0 then PIX_FMT_YUV420P else csc_fmt) ∧
      (env = ⟨true, true, true, true⟩ →
        ctx.gen < (Dec.set_decoder_csc_format ctx csc_fmt env).1.codec ∧
        ctx.gen < (Dec.set_decoder_csc_format ctx csc_fmt env).1.codec_ctx ∧
        ctx.gen < (Dec.set_decoder_csc_format ctx csc_fmt env).1.frame ∧
        (ctx.use_swscale ≠ 0 →
          ctx.gen < (Dec.set_decoder_csc_format ctx csc_fmt env).1.yuv2rgb))) := by
  unfold Dec.set_decoder_csc_format Dec.do_clean_decoder Dec.init_decoder_context
  constructor
  · intro h
    rw [if_neg (by omega : ¬ ctx.csc_format ≠ (if csc_fmt < 0 then PIX_FMT_YUV420P else csc_fmt))]
  · intro h
    rw [if_pos (by omega : ctx.csc_format ≠ (if csc_fmt < 0 then PIX_FMT_YUV420P else csc_fmt))]
    have hfmt : (if (if csc_fmt < 0 then PIX_FMT_YUV420P else csc_fmt) < 0 then
        PIX_FMT_YUV420P else (if csc_fmt < 0 then PIX_FMT_YUV420P else csc_fmt)) =
        (if csc_fmt < 0 then PIX_FMT_YUV420P else csc_fmt) := by
      unfold PIX_FMT_YUV420P
      split_ifs <;> omega
    rw [hfmt]
    refine ⟨rfl, ?_, ?_, ?_, fun henv => ?_⟩
    · split_ifs <;> simp
    · split_ifs <;> simp
    · split_ifs <;> simp
    · subst henv
      simp only
      norm_num
      split_ifs <;> simp_all <;> omega

/-- Witness for C8: changing `Examples.decCtx` (at `PIX_FMT_YUV420P`)
to `PIX_FMT_YUV422P` tears the decoder down, keeps its dimensions and
stores the new format; re-asserting `PIX_FMT_YUV420P` leaves it alone. -/
theorem set_decoder_csc_format_spec_witness :
    Dec.set_decoder_csc_format Examples.decCtx PIX_FMT_YUV420P
        ⟨true, true, true, true⟩ = (Examples.decCtx, false) ∧
    (Dec.set_decoder_csc_format Examples.decCtx PIX_FMT_YUV422P
        ⟨true, true, true, true⟩).2 = true ∧
    (Dec.set_decoder_csc_format Examples.decCtx PIX_FMT_YUV422P
        ⟨true, true, true, true⟩).1.width = Examples.decCtx.width :=
  ⟨(set_decoder_csc_format_spec Examples.decCtx PIX_FMT_YUV420P
      ⟨true, true, true, true⟩).1 (by decide),
   ((set_decoder_csc_format_spec Examples.decCtx PIX_FMT_YUV422P
      ⟨true, true, true, true⟩).2 (by decide)).1,
   ((set_decoder_csc_format_spec Examples.decCtx PIX_FMT_YUV422P
      ⟨true, true, true, true⟩).2 (by decide)).2.1⟩

/-! ### C9: decompress_image error path -/

/-- C9: on a live decoder context, when the underlying
`avcodec_decode_video2` call fails, `decompress_image` returns the
nonzero error code `2`, zeroes the caller's three output plane pointers,
and leaves every field of the context unchanged; a subsequent call on
the same context with a successfully decoded picture returns `0`. -/
theorem decompress_image_error_path (ctx : X264Ctx) (out : Dec.Planes)
    (hcc : ctx.codec_ctx ≠ 0) (hc : ctx.codec ≠ 0) (hh : ctx.height ≠ 0) :
    (Dec.decompress_image ctx none out).1 = 2 ∧
    (Dec.decompress_image ctx none out).1 ≠ 0 ∧
    (Dec.decompress_image ctx none out).2.1.data0 = 0 ∧
    (Dec.decompress_image ctx none out).2.1.data1 = 0 ∧
    (Dec.decompress_image ctx none out).2.1.data2 = 0 ∧
    (Dec.decompress_image ctx none out).2.1.linesize0 = out.linesize0 ∧
    (Dec.decompress_image ctx none out).2.2 = ctx ∧
    (∃ pic : Dec.Planes,
      (Dec.decompress_image ctx (some pic) out).1 = 0) := by
  unfold Dec.decompress_image
  rw [if_neg (by simp [hcc, hc])]
  refine ⟨rfl, by norm_num, rfl, rfl, rfl, rfl, rfl, ⟨⟨0, 0, 0, 1, 0, 0⟩, ?_⟩⟩
  rw [if_neg (by simp [hcc, hc])]
  simp only
  rw [if_neg (by simpa using hh)]

/-- Witness for C9 on `Examples.decCtx` (live codec, height 480). -/
theorem decompress_image_error_path_witness :
    (Dec.decompress_image Examples.decCtx none ⟨7, 8, 9, 10, 11, 12⟩).1 = 2 ∧
    (Dec.decompress_image Examples.decCtx none ⟨7, 8, 9, 10, 11, 12⟩).2.2 =
      Examples.decCtx :=
  ⟨(decompress_image_error_path Examples.decCtx ⟨7, 8, 9, 10, 11, 12⟩
      (by decide) (by decide) (by decide)).1,
   (decompress_image_error_path Examples.decCtx ⟨7, 8, 9, 10, 11, 12⟩
      (by decide) (by decide) (by decide)).2.2.2.2.2.2.1⟩

/-! ### C7: set_encoding_quality is idempotent -/

theorem get_x264_colour_sampling_congr {c c' : X264Ctx} (pct : Int)
    (h1 : c.supports_csc_option = c'.supports_csc_option)
    (h2 : c.I422_quality = c'.I422_quality)
    (h3 : c.I444_quality = c'.I444_quality) :
    get_x264_colour_sampling c pct = get_x264_colour_sampling c' pct := by
  simp only [get_x264_colour_sampling, h1, h2, h3]

theorem can_keep_colour_sampling_congr {c c' : X264Ctx} (pct : Int)
    (h1 : c.supports_csc_option = c'.supports_csc_option)
    (h2 : c.colour_sampling = c'.colour_sampling)
    (h3 : c.I444_min = c'.I444_min) (h4 : c.I422_min = c'.I422_min)
    (h5 : c.I444_quality = c'.I444_quality)
    (h6 : c.I422_quality = c'.I422_quality) :
    can_keep_colour_sampling c pct = can_keep_colour_sampling c' pct := by
  simp only [can_keep_colour_sampling, h1, h2, h3, h4, h5, h6]

theorem set_encoding_quality_params (ctx : X264Ctx) (pct : Int) :
    (set_encoding_quality ctx pct).1.supports_csc_option =
        ctx.supports_csc_option ∧
    (set_encoding_quality ctx pct).1.I422_min = ctx.I422_min ∧
    (set_encoding_quality ctx pct).1.I444_min = ctx.I444_min ∧
    (set_encoding_quality ctx pct).1.I422_quality = ctx.I422_quality ∧
    (set_encoding_quality ctx pct).1.I444_quality = ctx.I444_quality := by
  simp only [set_encoding_quality, do_init_encoder, do_clean_encoder]
  split_ifs <;> exact ⟨rfl, rfl, rfl, rfl, rfl⟩

theorem set_encoding_quality_csc_algo (ctx : X264Ctx) (pct : Int) :
    (set_encoding_quality ctx pct).1.csc_algo = get_csc_algo_for_quality pct := by
  simp only [set_encoding_quality, do_init_encoder, do_clean_encoder]
  split_ifs <;> rfl

theorem set_encoding_quality_mask (ctx : X264Ctx) (pct : Int) :
    maskLSB (set_encoding_quality ctx pct).1.quality = maskLSB pct := by
  simp only [set_encoding_quality, do_init_encoder, do_clean_encoder]
  split_ifs with h1 h2 h3 h4 <;> first
    | rfl
    | · exact not_not.mp (by assumption)

theorem set_encoding_quality_sampling_else (ctx : X264Ctx) (pct : Int)
    (hB : ¬ (ctx.supports_csc_option ≠ 0 ∧
        can_keep_colour_sampling ctx pct = 0 ∧
        ctx.colour_sampling ≠ get_x264_colour_sampling ctx pct)) :
    (set_encoding_quality ctx pct).1.colour_sampling = ctx.colour_sampling := by
  simp only [set_encoding_quality, if_neg hB]
  split_ifs <;> rfl

theorem set_encoding_quality_no_resample (ctx : X264Ctx) (pct : Int) :
    ¬ ((set_encoding_quality ctx pct).1.supports_csc_option ≠ 0 ∧
       can_keep_colour_sampling (set_encoding_quality ctx pct).1 pct = 0 ∧
       (set_encoding_quality ctx pct).1.colour_sampling ≠
         get_x264_colour_sampling (set_encoding_quality ctx pct).1 pct) := by
  by_cases hB : ctx.supports_csc_option ≠ 0 ∧
      can_keep_colour_sampling ctx pct = 0 ∧
      ctx.colour_sampling ≠ get_x264_colour_sampling ctx pct
  · rintro ⟨-, -, hne⟩
    apply hne
    have h1 : (set_encoding_quality ctx pct).1 =
        do_init_encoder
          { do_clean_encoder ctx with
            quality := pct, x264_quality := get_x264_quality pct } := by
      simp only [set_encoding_quality, if_pos hB]
    rw [h1]
    simp only [do_init_encoder, do_clean_encoder, get_x264_colour_sampling]
  · have hp := set_encoding_quality_params ctx pct
    have hs := set_encoding_quality_sampling_else ctx pct hB
    rintro ⟨h1, h2, h3⟩
    rw [can_keep_colour_sampling_congr pct hp.1 hs hp.2.2.1 hp.2.1
      hp.2.2.2.2 hp.2.2.2.1] at h2
    rw [hs, get_x264_colour_sampling_congr pct hp.1 hp.2.2.2.1 hp.2.2.2.2] at h3
    rw [hp.1] at h1
    exact hB ⟨h1, h2, h3⟩

/-- C7: for every `x264lib.c` encoder context and quality percentage,
the second of two successive `set_encoding_quality` calls with the same
percentage has no effect: it issues no teardown/reinitialisation, no
encoder reconfiguration and no csc reinitialisation, and every field of
the context is unchanged. -/
theorem set_encoding_quality_idempotent (ctx : X264Ctx) (pct : Int) :
    set_encoding_quality (set_encoding_quality ctx pct).1 pct =
      ((set_encoding_quality ctx pct).1, ⟨false, false, false⟩) := by
  have hno := set_encoding_quality_no_resample ctx pct
  have hmask := set_encoding_quality_mask ctx pct
  have halgo := set_encoding_quality_csc_algo ctx pct
  generalize hc : (set_encoding_quality ctx pct).1 = c at hno hmask halgo ⊢
  simp only [set_encoding_quality]
  rw [if_neg hno, if_neg (not_not_intro hmask)]
  simp only
  rw [if_neg (not_not_intro halgo), ← halgo]

/-! ### C10: quality updates that differ only in the least significant
bit are ignored -/

/-- C10: in both encoder variants, a quality update whose percentage
agrees with the stored quality once the least significant bit is masked
off (for example `70` versus `71`) issues no encoder reconfiguration and
does not update the stored quality: `get_encoder_quality` still returns
the previous value afterwards, not `pct` (whenever they differ).  For
the `x264lib.c` variant this holds provided the update triggers no
colour-sampling change. -/
theorem set_encoding_quality_lsb_ignored (ctx : X264Ctx)
    (ectx : EncX264.EncCtx) (pct pct' : Int)
    (hmask : maskLSB ctx.quality = maskLSB pct)
    (hnocsc : ¬ (ctx.supports_csc_option ≠ 0 ∧
        can_keep_colour_sampling ctx pct = 0 ∧
        ctx.colour_sampling ≠ get_x264_colour_sampling ctx pct))
    (hmask' : maskLSB ectx.quality = maskLSB pct') :
    (set_encoding_quality ctx pct).2.reconfig = false ∧
    (set_encoding_quality ctx pct).2.reinit = false ∧
    get_encoder_quality (set_encoding_quality ctx pct).1 = ctx.quality ∧
    (ctx.quality ≠ pct →
      get_encoder_quality (set_encoding_quality ctx pct).1 ≠ pct) ∧
    EncX264.set_encoding_quality ectx pct' = (ectx, false) ∧
    EncX264.get_encoder_quality (EncX264.set_encoding_quality ectx pct').1 =
      ectx.quality := by
  have henc : EncX264.set_encoding_quality ectx pct' = (ectx, false) := by
    unfold EncX264.set_encoding_quality
    rw [if_neg (by simp [hmask'])]
  unfold set_encoding_quality get_encoder_quality
  rw [if_neg hnocsc]
  simp only [if_neg (not_not_intro hmask)]
  split_ifs <;>
    exact ⟨rfl, rfl, rfl, fun h => h, henc, by rw [henc]; rfl⟩

/-- Witness for C10 with stored quality `70` and update `71` on both
variants (`Examples.ctxNoCsc` and `Examples.encCtx70`). -/
theorem set_encoding_quality_lsb_ignored_witness :
    get_encoder_quality (set_encoding_quality Examples.ctxNoCsc 71).1 = 70 ∧
    EncX264.get_encoder_quality
      (EncX264.set_encoding_quality Examples.encCtx70 71).1 = 70 :=
  ⟨(set_encoding_quality_lsb_ignored Examples.ctxNoCsc Examples.encCtx70 71 71
      (by decide) (by decide) (by decide)).2.2.1,
   (set_encoding_quality_lsb_ignored Examples.ctxNoCsc Examples.encCtx70 71 71
      (by decide) (by decide) (by decide)).2.2.2.2.2⟩

end Xpra
